import Mathlib

/-!
Verification development for the session controller implemented in
src/src/App.js of the aedesignsonoffapp repository.

The file shallowly embeds the parts of App.js that the specification
talks about: the JSON values handled by the browser runtime, the React
state of the App component (a SessionSnapshot together with the
WebSocket reference and a creation counter), the WebSocket lifecycle
effect keyed on the authentication flag, and the three handlers
checkAuthStatus, handleGetData and handleLogout. Stateful callbacks
become explicit state transformers; fallible JavaScript operations
(JSON.parse, property access on null) return Option.
-/

/-- JSON values as produced by JSON.parse. Numbers are modelled as
integers; no behaviour relevant to the claims depends on fractional
numeric values. -/
inductive Json where
  | null : Json
  | bool : Bool → Json
  | num : Int → Json
  | str : String → Json
  | arr : List Json → Json
  | obj : List (String × Json) → Json
deriving Repr

/-- Lookup of a key in the field list of a JSON object. JSON.parse
produces objects with unique keys, so first-match lookup is adequate. -/
def jlookup : List (String × Json) → String → Option Json
  | [], _ => none
  | (k, v) :: rest, key => if k = key then some v else jlookup rest key

/-- JavaScript property access value.key. Returns none when the access
throws a TypeError (property access on null), some none when the result
is the undefined value (missing key, or a primitive or array receiver),
and some (some v) when the property holds v. -/
def jsGetProp : Json → String → Option (Option Json)
  | Json.null, _ => none
  | Json.obj fs, key => some (jlookup fs key)
  | _, _ => some none

/-- JavaScript truthiness of a possibly-undefined value: undefined,
null, false, 0 and the empty string are falsy; every other value,
including any object or array, is truthy. -/
def truthy : Option Json → Bool
  | none => false
  | some Json.null => false
  | some (Json.bool b) => b
  | some (Json.num n) => n != 0
  | some (Json.str s) => s != ""
  | some (Json.arr _) => true
  | some (Json.obj _) => true

mutual

/-- JavaScript String(v) conversion as used by template literals. -/
def jsToString : Json → String
  | Json.null => "null"
  | Json.bool b => if b then "true" else "false"
  | Json.num n => toString n
  | Json.str s => s
  | Json.arr xs => jsArrToString xs
  | Json.obj _ => "[object Object]"

/-- Stringification of one array element inside Array.prototype.join:
null elements become the empty string. -/
def jsElemToString : Json → String
  | Json.null => ""
  | Json.bool b => if b then "true" else "false"
  | Json.num n => toString n
  | Json.str s => s
  | Json.arr xs => jsArrToString xs
  | Json.obj _ => "[object Object]"

/-- Array.prototype.toString: elements joined by commas. -/
def jsArrToString : List Json → String
  | [] => ""
  | [j] => jsElemToString j
  | j :: rest => jsElemToString j ++ "," ++ jsArrToString rest

end

/-- String(v) extended to a possibly-undefined value. -/
def jsToStringU : Option Json → String
  | none => "undefined"
  | some j => jsToString j

/-- The readyState of the WebSocket held in the ws ref, restricted to
the states a referenced socket can be in: the onclose handler clears
the ref, so a closed socket is never referenced. -/
inductive WsState where
  | connecting : WsState
  | opened : WsState
  | closing : WsState
deriving Repr, DecidableEq

/-- The React state of the App component: the SessionSnapshot fields
(isAuthenticated, userData, loading, error, statusMessage), the ws ref,
and a ghost counter recording how many WebSocket objects have been
constructed, used to state the creation-count property. The error field
holds a JSON value because handleGetData can store the raw detail field
of a response body in it. -/
structure AppState where
  isAuthenticated : Bool
  userData : Option Json
  loading : Bool
  error : Option Json
  statusMessage : String
  ws : Option WsState
  created : Nat
deriving Repr

/-- The initial React state: useState(false), useState(null),
useState(true), useState(null), useState two primes, ws ref null. -/
def initialState : AppState :=
  { isAuthenticated := false
    userData := none
    loading := true
    error := none
    statusMessage := ""
    ws := none
    created := 0 }

/-- The ws.current.onmessage handler. The frame argument is the result
of JSON.parse on the received text: none when the text is not valid
JSON, in which case JSON.parse throws. The result is none when the
handler throws before performing any state update (JSON.parse failure,
or the data.error access throwing on a null document), and some of the
updated state otherwise. -/
def handleMessage (frame : Option Json) (s : AppState) : Option AppState :=
  match frame with
  | none => none
  | some j =>
    match jsGetProp j "error" with
    | none => none
    | some eo =>
      if truthy eo then
        let dv : Option Json := (jsGetProp j "details").getD none
        let shown : Option Json := if truthy dv then dv else eo
        some { s with
          error := some (Json.str ("Error from server: " ++ jsToStringU shown))
          userData := none
          statusMessage := "Data received!" }
      else
        some { s with
          userData := some j
          error := none
          statusMessage := "Data received!" }

example : handleMessage (some (Json.obj [("error", Json.str "E1"), ("details", Json.str "bad token")])) initialState =
    some { initialState with
      error := some (Json.str "Error from server: bad token")
      userData := none
      statusMessage := "Data received!" } := rfl

example : handleMessage (some (Json.obj [("error", Json.str "")])) initialState =
    some { initialState with
      userData := some (Json.obj [("error", Json.str "")])
      error := none
      statusMessage := "Data received!" } := rfl

example : handleMessage (some Json.null) initialState = none := rfl

/-- Events the App component reacts to: a write to the isAuthenticated
state (which, when it changes the value, re-runs the WebSocket
lifecycle effect after its cleanup), and the four WebSocket callbacks.
A wsMessage event carries the JSON.parse outcome of the frame text. -/
inductive Ev where
  | setAuth : Bool → Ev
  | wsOpen : Ev
  | wsMessage : Option Json → Ev
  | wsError : Ev
  | wsClose : Ev

/-- WebSocket.close(): a connecting or open socket moves to closing, a
closing socket is unchanged. -/
def closeWs : WsState → WsState
  | WsState.connecting => WsState.closing
  | WsState.opened => WsState.closing
  | WsState.closing => WsState.closing

/-- One event-handling step of the component.

setAuth b with b equal to the current value is the identity: React
bails out of the state update and the effect, whose only dependency is
isAuthenticated, does not re-run. When the value changes, the cleanup
of the previous effect run closes the socket if its readyState is OPEN,
then the effect body runs: if authenticated and the ws ref is null, a
new WebSocket is constructed (readyState CONNECTING, creation counter
incremented); if authenticated and a socket is already referenced,
nothing happens; if not authenticated, any referenced socket gets
close() called on it.

wsOpen fires only for a socket still connecting and records the
connected status message. wsMessage applies the onmessage handler; if
the handler throws, no state update has been performed. wsError sets
the generic channel error. wsClose runs the onclose handler, which
unconditionally sets the disconnected status message and nulls the ws
ref. -/
def step (s : AppState) : Ev → AppState
  | Ev.setAuth b =>
    if b = s.isAuthenticated then s
    else
      let wsAfterCleanup : Option WsState :=
        match s.ws with
        | some WsState.opened => some WsState.closing
        | w => w
      let s1 : AppState := { s with isAuthenticated := b, ws := wsAfterCleanup }
      if b then
        match s1.ws with
        | none => { s1 with ws := some WsState.connecting, created := s1.created + 1 }
        | some _ => s1
      else
        { s1 with ws := s1.ws.map closeWs }
  | Ev.wsOpen =>
    match s.ws with
    | some WsState.connecting =>
        { s with ws := some WsState.opened
                 statusMessage := "Connected to server. Ready to fetch data." }
    | _ => s
  | Ev.wsMessage frame =>
    match s.ws with
    | some WsState.opened => (handleMessage frame s).getD s
    | _ => s
  | Ev.wsError =>
    match s.ws with
    | some _ => { s with error := some (Json.str "A WebSocket error occurred. Connection may be lost.") }
    | none => s
  | Ev.wsClose =>
    { s with ws := none, statusMessage := "Disconnected from server." }

/-- Run a list of events from a state. -/
def run (s : AppState) : List Ev → AppState
  | [] => s
  | e :: rest => run (step s e) rest

/-- Number of WebSocket constructions an event performs from a given
state: one exactly for a setAuth true received while unauthenticated
with a null ws ref. -/
def creates (s : AppState) : Ev → Nat
  | Ev.setAuth true => if !s.isAuthenticated && s.ws.isNone then 1 else 0
  | _ => 0

/-- Number of WebSocket constructions performed along an event list. -/
def countCreations (s : AppState) : List Ev → Nat
  | [] => 0
  | e :: rest => creates s e + countCreations (step s e) rest

/-- Number of live (connecting or open) channels referenced by the
state. -/
def liveCount (s : AppState) : Nat :=
  match s.ws with
  | some WsState.connecting => 1
  | some WsState.opened => 1
  | _ => 0

/-- Outcome of one fetch call as the handlers observe it: a transport
failure (the fetch promise rejects), or a response with an ok flag and
the result of parsing its body as JSON, where none records a body on
which response.json() rejects. -/
inductive HttpOutcome where
  | transportFail : HttpOutcome
  | response : Bool → Option Json → HttpOutcome

/-- The value of result.detail?.error for a given value of
result.detail (none meaning the detail key is undefined): optional
chaining turns a null or undefined receiver into undefined, property
access on any other non-object value is undefined. -/
def optChainErrorField : Option Json → Option Json
  | none => none
  | some Json.null => none
  | some (Json.obj fs) => jlookup fs "error"
  | some _ => none

/-- The handleGetData handler, as a function of the observed HTTP
outcome. It first sets the requesting status message and clears
userData and error, then awaits fetch and response.json() inside
try: a rejection of either lands in catch, which sets the
unreachable-backend error. Only then is response.ok inspected; on a
non-ok response the error is set to
result.detail?.error or result.detail or the generic fallback. -/
def handleGetData (o : HttpOutcome) (s : AppState) : AppState :=
  let s1 : AppState := { s with statusMessage := "Requesting data from eWeLink..."
                                userData := none
                                error := none }
  match o with
  | HttpOutcome.transportFail =>
      { s1 with error := some (Json.str "Failed to send data request to backend.")
                statusMessage := "" }
  | HttpOutcome.response ok body =>
    match body with
    | none =>
        { s1 with error := some (Json.str "Failed to send data request to backend.")
                  statusMessage := "" }
    | some j =>
      if ok then s1
      else
        match jsGetProp j "detail" with
        | none =>
            { s1 with error := some (Json.str "Failed to send data request to backend.")
                      statusMessage := "" }
        | some dv =>
          let ev : Option Json := optChainErrorField dv
          let msg : Json :=
            if truthy ev then ev.getD Json.null
            else if truthy dv then dv.getD Json.null
            else Json.str "Failed to trigger data fetch."
          { s1 with error := some msg, statusMessage := "" }

/-- The result of the probe body before the finally clause. On a
response with ok set, response.json() and the data.authenticated read
happen inside try, so a body that is not valid JSON or is the JSON
null document lands in catch and sets the cannot-connect error;
otherwise setIsAuthenticated stores the authenticated field and a
change of its truthiness re-runs the WebSocket effect. On a non-ok
response the status-check error is set. On a rejected fetch the
cannot-connect error is set. -/
def checkAuthCore (o : HttpOutcome) (s : AppState) : AppState :=
  match o with
  | HttpOutcome.transportFail =>
      { s with error := some (Json.str "Cannot connect to the backend. Is it running?") }
  | HttpOutcome.response ok body =>
    if ok then
      match body with
      | none => { s with error := some (Json.str "Cannot connect to the backend. Is it running?") }
      | some j =>
        match jsGetProp j "authenticated" with
        | none => { s with error := some (Json.str "Cannot connect to the backend. Is it running?") }
        | some v => step s (Ev.setAuth (truthy v))
    else
      { s with error := some (Json.str "Failed to check authentication status.") }

/-- The checkAuthStatus handler: the probe body followed by the finally
clause, which clears loading on every path. -/
def checkAuthStatus (o : HttpOutcome) (s : AppState) : AppState :=
  let s1 := checkAuthCore o s
  { s1 with loading := false }

/-- The handleLogout handler: setIsAuthenticated(false), whose change
of value re-runs the WebSocket effect and tears the channel down, then
setUserData(null). The navigation to the external logout endpoint does
not touch the modelled state. -/
def handleLogout (s : AppState) : AppState :=
  let s1 := step s (Ev.setAuth false)
  { s1 with userData := none }

example : (run initialState [Ev.setAuth true]).created = 1 := rfl
example : (run initialState [Ev.setAuth true, Ev.setAuth true]).created = 1 := rfl
example : (run initialState [Ev.setAuth true, Ev.wsOpen, Ev.wsClose, Ev.setAuth false, Ev.setAuth true]).created = 2 := rfl
example : (run initialState [Ev.setAuth true, Ev.wsOpen, Ev.setAuth false, Ev.setAuth true]).created = 1 := rfl
example : (run initialState [Ev.setAuth true, Ev.wsOpen, Ev.wsClose, Ev.setAuth true]).created = 1 := rfl
example : (handleGetData (HttpOutcome.response false (some (Json.obj [("detail", Json.obj [("error", Json.str "rate limited")])]))) initialState).error = some (Json.str "rate limited") := rfl
example : (handleGetData (HttpOutcome.response false (some (Json.obj [("detail", Json.str "forbidden")]))) initialState).error = some (Json.str "forbidden") := rfl
example : (handleGetData (HttpOutcome.response true none) initialState).error = some (Json.str "Failed to send data request to backend.") := rfl
example : (checkAuthStatus (HttpOutcome.response true (some (Json.obj [("authenticated", Json.bool true)]))) initialState).isAuthenticated = true := rfl
example : (checkAuthStatus (HttpOutcome.response true (some (Json.obj [("authenticated", Json.bool true)]))) initialState).ws = some WsState.connecting := rfl
example : (handleLogout { initialState with isAuthenticated := true, ws := some WsState.opened, userData := some (Json.num 21) }).userData = none := rfl

/-- A successful run of the onmessage handler only rewrites snapshot
display fields; the ws ref, the creation counter, the authentication
flag and the loading flag are untouched. -/
theorem handleMessage_some_fields (f : Option Json) (s s' : AppState)
    (h : handleMessage f s = some s') :
    s'.ws = s.ws ∧ s'.created = s.created ∧
    s'.isAuthenticated = s.isAuthenticated ∧ s'.loading = s.loading := by
  cases f with
  | none => simp [handleMessage] at h
  | some j =>
    simp only [handleMessage] at h
    split at h
    · exact absurd h (by simp)
    · split at h
      · injection h with h
        subst h
        exact ⟨rfl, rfl, rfl, rfl⟩
      · injection h with h
        subst h
        exact ⟨rfl, rfl, rfl, rfl⟩

/-- One step changes the creation counter by exactly the number of
sockets the event constructs. -/
theorem step_created (s : AppState) (e : Ev) :
    (step s e).created = s.created + creates s e := by
  cases e with
  | setAuth b =>
    cases b with
    | false =>
      simp only [step, creates]
      by_cases h : false = s.isAuthenticated
      · rw [if_pos h]; simp
      · rw [if_neg h]
        simp
    | true =>
      simp only [step, creates]
      by_cases h : true = s.isAuthenticated
      · rw [if_pos h]
        rw [← h]
        simp
      · rw [if_neg h]
        have ha : s.isAuthenticated = false := by
          cases hh : s.isAuthenticated
          · rfl
          · exact absurd hh.symm h
        cases hw : s.ws with
        | none => simp [hw, ha]
        | some w => cases w <;> simp [hw, ha]
  | wsOpen =>
    simp only [step, creates]
    cases hw : s.ws with
    | none => simp
    | some w => cases w <;> simp
  | wsMessage f =>
    simp only [step, creates]
    cases hw : s.ws with
    | none => simp
    | some w =>
      cases w with
      | connecting => simp
      | closing => simp
      | opened =>
        simp only [Nat.add_zero]
        cases hm : handleMessage f s with
        | none => simp [hm]
        | some s' => simp [hm, (handleMessage_some_fields f s s' hm).2.1]
  | wsError =>
    simp only [step, creates]
    cases hw : s.ws with
    | none => simp
    | some w => simp
  | wsClose => rfl

/-- Along any event list the creation counter advances by exactly the
number of constructions the events perform. -/
theorem run_created (evs : List Ev) :
    ∀ s : AppState, (run s evs).created = s.created + countCreations s evs := by
  induction evs with
  | nil => intro s; simp [run, countCreations]
  | cons e rest ih =>
    intro s
    simp only [run, countCreations]
    rw [ih (step s e), step_created]
    omega

/-- The state references at most one live channel. -/
theorem liveCount_le_one (s : AppState) : liveCount s ≤ 1 := by
  unfold liveCount
  cases hw : s.ws with
  | none => simp
  | some w => cases w <;> simp

/-- Writing the authentication flag leaves it equal to the written
value. -/
theorem step_setAuth_auth (s : AppState) (b : Bool) :
    (step s (Ev.setAuth b)).isAuthenticated = b := by
  simp only [step]
  by_cases h : b = s.isAuthenticated
  · rw [if_pos h]; exact h.symm
  · rw [if_neg h]
    cases b with
    | true =>
      cases hw : s.ws with
      | none => simp [hw]
      | some w => cases w <;> simp [hw]
    | false =>
      cases hw : s.ws with
      | none => simp [hw]
      | some w => cases w <;> simp [hw]

/-- Writing the authentication flag touches neither the displayed data,
the error, nor the loading flag. -/
theorem step_setAuth_snapshot (s : AppState) (b : Bool) :
    (step s (Ev.setAuth b)).userData = s.userData ∧
    (step s (Ev.setAuth b)).error = s.error ∧
    (step s (Ev.setAuth b)).loading = s.loading := by
  simp only [step]
  by_cases h : b = s.isAuthenticated
  · rw [if_pos h]; exact ⟨rfl, rfl, rfl⟩
  · rw [if_neg h]
    cases b with
    | true =>
      cases hw : s.ws with
      | none => simp [hw]
      | some w => cases w <;> simp [hw]
    | false =>
      cases hw : s.ws with
      | none => simp [hw]
      | some w => cases w <;> simp [hw]

/-- Dropping authentication while a socket is referenced requests its
close: the referenced socket ends up closing. -/
theorem step_setAuth_false_closes (s : AppState) (ha : s.isAuthenticated = true)
    (w : WsState) (hw : s.ws = some w) :
    (step s (Ev.setAuth false)).ws = some WsState.closing := by
  simp only [step]
  rw [if_neg (by rw [ha]; simp)]
  cases w <;> simp [hw, closeWs]

/-- While authenticated, any event other than a setAuth false keeps the
authentication flag, performs no construction, and cannot resurrect a
null ws ref. -/
theorem step_preserves_no_reconnect (s : AppState) (e : Ev)
    (ha : s.isAuthenticated = true) (hne : e ≠ Ev.setAuth false) :
    (step s e).isAuthenticated = true ∧ (step s e).created = s.created ∧
    (s.ws = none → (step s e).ws = none) := by
  cases e with
  | setAuth b =>
    cases b with
    | false => exact absurd rfl hne
    | true => simp [step, ha]
  | wsOpen =>
    cases hw : s.ws with
    | none => simp [step, hw, ha]
    | some w => cases w <;> simp [step, hw, ha]
  | wsMessage f =>
    cases hw : s.ws with
    | none => simp [step, hw, ha]
    | some w =>
      cases w with
      | connecting => simp [step, hw, ha]
      | closing => simp [step, hw, ha]
      | opened =>
        cases hm : handleMessage f s with
        | none => simp [step, hw, hm, ha]
        | some s' =>
          have hf := handleMessage_some_fields f s s' hm
          simp [step, hw, hm, ha, hf.1, hf.2.1, hf.2.2.1]
  | wsError =>
    cases hw : s.ws with
    | none => simp [step, hw, ha]
    | some w => simp [step, hw, ha]
  | wsClose => simp [step, ha]

/-- A state in which a socket is open and data was already displayed:
reachable, for instance, after a successful probe, the open callback
and a data message. -/
def demoAuthedState : AppState :=
  { isAuthenticated := true
    userData := some (Json.num 21)
    loading := false
    error := none
    statusMessage := "Data received!"
    ws := some WsState.opened
    created := 1 }

/-- A state in which the channel already closed while the session is
still authenticated. -/
def demoClosedState : AppState :=
  { isAuthenticated := true
    userData := some (Json.num 21)
    loading := false
    error := none
    statusMessage := "Disconnected from server."
    ws := none
    created := 1 }

/-- Claim C1: at most one live channel ever exists; a flip of the
authentication flag to true creates a socket only when the ws ref is
null; a repeated true signal is a no-op; and along every event list
from the initial state the number of sockets constructed equals the
number of false-to-true authentication transitions that found a null
ws ref. -/
theorem C1_channel_creation_discipline :
    (∀ (s : AppState) (e : Ev), s.ws.isSome = true → (step s e).created = s.created) ∧
    (∀ s : AppState, s.isAuthenticated = true → step s (Ev.setAuth true) = s) ∧
    (∀ evs : List Ev, (run initialState evs).created = countCreations initialState evs) ∧
    (∀ (s : AppState) (evs : List Ev), liveCount (run s evs) ≤ 1) := by
  refine ⟨?_, ?_, ?_, ?_⟩
  · intro s e hs
    rw [step_created]
    have hc : creates s e = 0 := by
      cases e with
      | setAuth b =>
        cases b with
        | true =>
          cases hw : s.ws with
          | none => rw [hw] at hs; simp at hs
          | some w => simp [creates, hw]
        | false => rfl
      | wsOpen => rfl
      | wsMessage f => rfl
      | wsError => rfl
      | wsClose => rfl
    omega
  · intro s ha
    simp [step, ha]
  · intro evs
    have h := run_created evs initialState
    simpa [initialState] using h
  · intro s evs
    exact liveCount_le_one (run s evs)

/-- Witness for claim C1 at concrete states and a concrete event
list. -/
theorem C1_witness :
    (step demoAuthedState Ev.wsError).created = demoAuthedState.created ∧
    step demoAuthedState (Ev.setAuth true) = demoAuthedState ∧
    (run initialState [Ev.setAuth true, Ev.setAuth false]).created =
      countCreations initialState [Ev.setAuth true, Ev.setAuth false] ∧
    liveCount (run initialState [Ev.setAuth true]) ≤ 1 :=
  ⟨C1_channel_creation_discipline.1 demoAuthedState Ev.wsError rfl,
   C1_channel_creation_discipline.2.1 demoAuthedState rfl,
   C1_channel_creation_discipline.2.2.1 [Ev.setAuth true, Ev.setAuth false],
   C1_channel_creation_discipline.2.2.2 initialState [Ev.setAuth true]⟩

/-- Claim C7: every close event nulls the ws ref and sets the
disconnected status message, while the displayed data and error keep
the values they held before the close. -/
theorem C7_close_preserves_data :
    ∀ s : AppState,
      (step s Ev.wsClose).ws = none ∧
      (step s Ev.wsClose).statusMessage = "Disconnected from server." ∧
      (step s Ev.wsClose).userData = s.userData ∧
      (step s Ev.wsClose).error = s.error :=
  fun _ => ⟨rfl, rfl, rfl, rfl⟩

/-- Claim C8: as long as authentication stays true, no event list free
of setAuth false constructs a socket, and a null ws ref stays null. -/
theorem C8_no_reconnect_without_retoggle :
    ∀ (evs : List Ev) (s : AppState),
      s.isAuthenticated = true →
      (∀ e ∈ evs, e ≠ Ev.setAuth false) →
      (run s evs).created = s.created ∧ (s.ws = none → (run s evs).ws = none) := by
  intro evs
  induction evs with
  | nil => intro s _ _; exact ⟨rfl, fun h => h⟩
  | cons e rest ih =>
    intro s ha hne
    have he : e ≠ Ev.setAuth false := hne e (List.mem_cons_self e rest)
    have hrest : ∀ x ∈ rest, x ≠ Ev.setAuth false :=
      fun x hx => hne x (List.mem_cons_of_mem e hx)
    have hp := step_preserves_no_reconnect s e ha he
    have hr := ih (step s e) hp.1 hrest
    refine ⟨?_, ?_⟩
    · show (run (step s e) rest).created = s.created
      rw [hr.1, hp.2.1]
    · intro h0
      show (run (step s e) rest).ws = none
      exact hr.2 (hp.2.2 h0)

/-- Witness for claim C8: after a close while still authenticated,
an open attempt, a message, an error and a repeated true signal leave
the ws ref null and the creation count unchanged. -/
theorem C8_witness :
    (run demoClosedState [Ev.setAuth true, Ev.wsOpen, Ev.wsError, Ev.wsClose]).created = demoClosedState.created ∧
    (run demoClosedState [Ev.setAuth true, Ev.wsOpen, Ev.wsError, Ev.wsClose]).ws = none := by
  have hne : ∀ e ∈ [Ev.setAuth true, Ev.wsOpen, Ev.wsError, Ev.wsClose], e ≠ Ev.setAuth false := by
    intro e he
    fin_cases he <;> simp
  have h := C8_no_reconnect_without_retoggle
    [Ev.setAuth true, Ev.wsOpen, Ev.wsError, Ev.wsClose] demoClosedState rfl hne
  exact ⟨h.1, h.2 rfl⟩

/-- An error message as the server sends it: an error code and a
details field. -/
def errFrame : Json := Json.obj [("error", Json.str "E1"), ("details", Json.str "bad token")]

/-- A message that carries an error key whose value is the empty
string, which is falsy in JavaScript. -/
def falsyErrFrame : Json := Json.obj [("error", Json.str "")]

/-- Claim C2, amended: the discriminator is the truthiness of the error
value, not the presence of the error key, and the stored error string
carries the prefix produced by the template literal. For a message
whose error value is truthy, error becomes the prefixed string of the
details value (falling back to the error value when details is falsy)
and data is cleared; for a message whose error value is absent or
falsy, data becomes the payload and error is cleared; both branches set
the data-received status message. -/
theorem C2_message_discrimination :
    ∀ (s : AppState) (j : Json) (eo : Option Json),
      jsGetProp j "error" = some eo →
      (truthy eo = true →
        handleMessage (some j) s =
          some { s with
            error := some (Json.str ("Error from server: " ++
              jsToStringU (if truthy ((jsGetProp j "details").getD none) then
                (jsGetProp j "details").getD none else eo)))
            userData := none
            statusMessage := "Data received!" }) ∧
      (truthy eo = false →
        handleMessage (some j) s =
          some { s with
            userData := some j
            error := none
            statusMessage := "Data received!" }) := by
  intro s j eo hg
  constructor
  · intro ht
    simp [handleMessage, hg, ht]
  · intro ht
    simp [handleMessage, hg, ht]

/-- Witness for claim C2 on the documented error message. -/
theorem C2_witness :
    handleMessage (some errFrame) initialState =
      some { initialState with
        error := some (Json.str ("Error from server: " ++
          jsToStringU (if truthy ((jsGetProp errFrame "details").getD none) then
            (jsGetProp errFrame "details").getD none else some (Json.str "E1"))))
        userData := none
        statusMessage := "Data received!" } :=
  (C2_message_discrimination initialState errFrame (some (Json.str "E1")) rfl).1 rfl

/-- Counterexample to claim C2 as stated: the message with error key
bound to the empty string contains an error key, yet the handler takes
the data branch (data set to the payload, error cleared); and for the
documented error message the stored error is the prefixed string, not
the bare details value. -/
theorem C2_counterexample :
    handleMessage (some falsyErrFrame) initialState =
      some { initialState with
        userData := some falsyErrFrame
        error := none
        statusMessage := "Data received!" } ∧
    (handleMessage (some errFrame) initialState).map AppState.error =
      some (some (Json.str "Error from server: bad token")) ∧
    ¬ (handleMessage (some errFrame) initialState).map AppState.error =
        some (some (Json.str "bad token")) := by
  refine ⟨rfl, rfl, fun h => ?_⟩
  rw [show (handleMessage (some errFrame) initialState).map AppState.error =
      some (some (Json.str "Error from server: bad token")) from rfl] at h
  injection h with h
  injection h with h
  injection h with h
  exact absurd h (by decide)

/-- Claim C3, amended: for the documented error message the snapshot
error becomes the prefixed string containing the details, and data
becomes absent. -/
theorem C3_error_message_value :
    ∀ s : AppState,
      handleMessage (some errFrame) s =
        some { s with
          error := some (Json.str "Error from server: bad token")
          userData := none
          statusMessage := "Data received!" } :=
  fun _ => rfl

/-- Counterexample to claim C3 as stated: the stored error string is
the prefixed message, not exactly the details string. -/
theorem C3_counterexample :
    (handleMessage (some errFrame) initialState).map AppState.error =
      some (some (Json.str "Error from server: bad token")) ∧
    ¬ (handleMessage (some errFrame) initialState).map AppState.error =
        some (some (Json.str "bad token")) := by
  refine ⟨rfl, fun h => ?_⟩
  rw [show (handleMessage (some errFrame) initialState).map AppState.error =
      some (some (Json.str "Error from server: bad token")) from rfl] at h
  injection h with h
  injection h with h
  injection h with h
  exact absurd h (by decide)

/-- Claim C9, amended: the handler is total on frames whose text parses
to a JSON value other than null, and any such frame without a truthy
error value, whatever its shape, is treated as a data message; a frame
whose text is not valid JSON, or parses to the JSON null document,
makes the handler throw before any state update. -/
theorem C9_handler_totality :
    (∀ (s : AppState) (j : Json), j ≠ Json.null →
      (handleMessage (some j) s).isSome = true) ∧
    (∀ (s : AppState) (j : Json), jsGetProp j "error" = some none →
      handleMessage (some j) s =
        some { s with
          userData := some j
          error := none
          statusMessage := "Data received!" }) := by
  constructor
  · intro s j hj
    cases j with
    | null => exact absurd rfl hj
    | bool b => simp [handleMessage, jsGetProp, truthy]
    | num n => simp [handleMessage, jsGetProp, truthy]
    | str t => simp [handleMessage, jsGetProp, truthy]
    | arr xs => simp [handleMessage, jsGetProp, truthy]
    | obj fs =>
      simp only [handleMessage, jsGetProp]
      split
      · simp
      · simp
  · intro s j hg
    simp [handleMessage, hg, truthy]

/-- Witness for claim C9 on a frame holding a bare number. -/
theorem C9_witness :
    (handleMessage (some (Json.num 5)) initialState).isSome = true ∧
    handleMessage (some (Json.num 5)) initialState =
      some { initialState with
        userData := some (Json.num 5)
        error := none
        statusMessage := "Data received!" } :=
  ⟨C9_handler_totality.1 initialState (Json.num 5) (fun h => Json.noConfusion h),
   C9_handler_totality.2 initialState (Json.num 5) rfl⟩

/-- Counterexample to claim C9 as stated: a frame whose text is not
valid JSON makes JSON.parse throw, and a frame parsing to the JSON null
document makes the error-key access throw; in both cases the handler
raises instead of processing the frame. -/
theorem C9_counterexample :
    handleMessage none initialState = none ∧
    handleMessage (some Json.null) initialState = none :=
  ⟨rfl, rfl⟩

/-- A state the component can be in right after displaying pushed data
together with an earlier error. -/
def loggedInState : AppState :=
  { isAuthenticated := true
    userData := some (Json.num 21)
    loading := false
    error := some (Json.str "stale")
    statusMessage := "Data received!"
    ws := some WsState.opened
    created := 1 }

/-- Counterexample to claim C4 as stated: handleLogout clears userData
to null, so the data field does not keep its previous value. -/
theorem C4_counterexample :
    (handleLogout loggedInState).userData = none ∧
    loggedInState.userData = some (Json.num 21) ∧
    ¬ (handleLogout loggedInState).userData = loggedInState.userData := by
  refine ⟨rfl, rfl, fun h => ?_⟩
  rw [show (handleLogout loggedInState).userData = none from rfl,
      show loggedInState.userData = some (Json.num 21) from rfl] at h
  exact Option.noConfusion h

/-- Claim C4, amended: logout sets authenticated to false and requests
the close of any referenced socket, clears the displayed data to null,
and leaves the error field unchanged. -/
theorem C4_logout_effect :
    ∀ s : AppState,
      (handleLogout s).isAuthenticated = false ∧
      (handleLogout s).userData = none ∧
      (handleLogout s).error = s.error ∧
      (s.isAuthenticated = true → ∀ w, s.ws = some w →
        (handleLogout s).ws = some WsState.closing) := by
  intro s
  refine ⟨?_, rfl, ?_, ?_⟩
  · show (step s (Ev.setAuth false)).isAuthenticated = false
    exact step_setAuth_auth s false
  · show (step s (Ev.setAuth false)).error = s.error
    exact (step_setAuth_snapshot s false).2.1
  · intro ha w hw
    show (step s (Ev.setAuth false)).ws = some WsState.closing
    exact step_setAuth_false_closes s ha w hw

/-- Witness for claim C4 at a state with displayed data, a stale error
and an open socket. -/
theorem C4_witness :
    (handleLogout loggedInState).isAuthenticated = false ∧
    (handleLogout loggedInState).userData = none ∧
    (handleLogout loggedInState).error = loggedInState.error ∧
    (handleLogout loggedInState).ws = some WsState.closing :=
  ⟨(C4_logout_effect loggedInState).1,
   (C4_logout_effect loggedInState).2.1,
   (C4_logout_effect loggedInState).2.2.1,
   (C4_logout_effect loggedInState).2.2.2 rfl WsState.opened rfl⟩

/-- Claim C6: the probe clears loading on every outcome; a transport
failure or a non-ok response leaves authenticated false and sets an
error string; an ok response sets authenticated from the authenticated
field of its body. -/
theorem C6_probe_outcomes :
    (∀ (o : HttpOutcome) (s : AppState), (checkAuthStatus o s).loading = false) ∧
    (∀ s : AppState, s.isAuthenticated = false →
      (checkAuthStatus HttpOutcome.transportFail s).isAuthenticated = false ∧
      (checkAuthStatus HttpOutcome.transportFail s).error =
        some (Json.str "Cannot connect to the backend. Is it running?")) ∧
    (∀ (s : AppState) (body : Option Json), s.isAuthenticated = false →
      (checkAuthStatus (HttpOutcome.response false body) s).isAuthenticated = false ∧
      (checkAuthStatus (HttpOutcome.response false body) s).error =
        some (Json.str "Failed to check authentication status.")) ∧
    (∀ (s : AppState) (j : Json) (v : Option Json),
      jsGetProp j "authenticated" = some v →
      (checkAuthStatus (HttpOutcome.response true (some j)) s).isAuthenticated = truthy v) := by
  refine ⟨?_, ?_, ?_, ?_⟩
  · intro o s; rfl
  · intro s ha; exact ⟨ha, rfl⟩
  · intro s body ha; exact ⟨ha, rfl⟩
  · intro s j v hv
    show (checkAuthCore (HttpOutcome.response true (some j)) s).isAuthenticated = truthy v
    simp only [checkAuthCore, hv, if_true]
    exact step_setAuth_auth s (truthy v)

/-- Witness for claim C6 on concrete probe outcomes. -/
theorem C6_witness :
    (checkAuthStatus HttpOutcome.transportFail initialState).loading = false ∧
    (checkAuthStatus HttpOutcome.transportFail initialState).isAuthenticated = false ∧
    (checkAuthStatus (HttpOutcome.response false none) initialState).error =
      some (Json.str "Failed to check authentication status.") ∧
    (checkAuthStatus (HttpOutcome.response true (some (Json.obj [("authenticated", Json.bool true)]))) initialState).isAuthenticated =
      truthy (some (Json.bool true)) :=
  ⟨C6_probe_outcomes.1 HttpOutcome.transportFail initialState,
   (C6_probe_outcomes.2.1 initialState rfl).1,
   (C6_probe_outcomes.2.2.1 initialState none rfl).2,
   C6_probe_outcomes.2.2.2 initialState (Json.obj [("authenticated", Json.bool true)])
     (some (Json.bool true)) rfl⟩

/-- Claim C5, amended: for a non-ok response whose body parses to a
JSON value on which the detail access does not throw, the error is the
detail error value when truthy, else the detail value when truthy, else
the generic fallback string; transport failures and bodies that are not
valid JSON produce the unreachable-backend message. The two documented
403 instances hold. -/
theorem C5_trigger_rejection_message :
    (∀ (s : AppState) (j : Json) (dv : Option Json),
      jsGetProp j "detail" = some dv →
      (handleGetData (HttpOutcome.response false (some j)) s).error =
        some (if truthy (optChainErrorField dv) then (optChainErrorField dv).getD Json.null
              else if truthy dv then dv.getD Json.null
              else Json.str "Failed to trigger data fetch.") ∧
      (handleGetData (HttpOutcome.response false (some j)) s).statusMessage = "") ∧
    (∀ s : AppState, (handleGetData HttpOutcome.transportFail s).error =
        some (Json.str "Failed to send data request to backend.")) ∧
    (∀ s : AppState,
      (handleGetData (HttpOutcome.response false
        (some (Json.obj [("detail", Json.obj [("error", Json.str "rate limited")])]))) s).error =
        some (Json.str "rate limited")) ∧
    (∀ s : AppState,
      (handleGetData (HttpOutcome.response false
        (some (Json.obj [("detail", Json.str "forbidden")]))) s).error =
        some (Json.str "forbidden")) := by
  refine ⟨?_, ?_, ?_, ?_⟩
  · intro s j dv hd
    constructor
    · simp [handleGetData, hd]
    · simp [handleGetData, hd]
  · intro s; rfl
  · intro s; rfl
  · intro s; rfl

/-- Witness for claim C5 on the documented forbidden response. -/
theorem C5_witness :
    (handleGetData (HttpOutcome.response false
      (some (Json.obj [("detail", Json.str "forbidden")]))) initialState).error =
      some (if truthy (optChainErrorField (some (Json.str "forbidden"))) then
              (optChainErrorField (some (Json.str "forbidden"))).getD Json.null
            else if truthy (some (Json.str "forbidden")) then
              (some (Json.str "forbidden")).getD Json.null
            else Json.str "Failed to trigger data fetch.") ∧
    (handleGetData (HttpOutcome.response false
      (some (Json.obj [("detail", Json.str "forbidden")]))) initialState).statusMessage = "" :=
  C5_trigger_rejection_message.1 initialState (Json.obj [("detail", Json.str "forbidden")])
    (some (Json.str "forbidden")) rfl

/-- Counterexample to claim C5 as stated: a body whose nested detail
error field is present but empty stores the whole detail object, not
the nested field; and a non-ok response whose body is not valid JSON,
or is the JSON null document, produces the unreachable-backend message
instead of a detail-derived message or the generic fallback. -/
theorem C5_counterexample :
    (handleGetData (HttpOutcome.response false
      (some (Json.obj [("detail", Json.obj [("error", Json.str "")])]))) initialState).error =
      some (Json.obj [("error", Json.str "")]) ∧
    (handleGetData (HttpOutcome.response false none) initialState).error =
      some (Json.str "Failed to send data request to backend.") ∧
    (handleGetData (HttpOutcome.response false (some Json.null)) initialState).error =
      some (Json.str "Failed to send data request to backend.") :=
  ⟨rfl, rfl, rfl⟩

/-- Claim C10: the body is parsed before the status flag is inspected,
so any response whose body is not valid JSON, ok or not, lands in the
catch clause and produces exactly the transport-failure result. -/
theorem C10_parse_precedes_status_check :
    ∀ (s : AppState) (ok : Bool),
      handleGetData (HttpOutcome.response ok none) s = handleGetData HttpOutcome.transportFail s ∧
      (handleGetData (HttpOutcome.response ok none) s).error =
        some (Json.str "Failed to send data request to backend.") ∧
      (handleGetData (HttpOutcome.response ok none) s).statusMessage = "" :=
  fun _ _ => ⟨rfl, rfl, rfl⟩
